import Mathlib

/-!
Verification development for the wooting-aim adaptive keyboard tuner.

The C sources (src/main.c, src/hid_writer.c) are shallowly embedded here.
IEEE floats are modelled as exact rationals (ℚ), machine timestamps
(LARGE_INTEGER performance-counter readings) as rationals passed in
explicitly, and the few truncating integer casts are modelled with
explicit truncation toward zero.  Every definition mirrors the
corresponding C function; field and function names follow the source.
-/

/-- DEAD_ZONE constant from main.c (0.01f). -/
def DEAD_ZONE : ℚ := 1/100

/-! ## HID layer (hid_writer.c) -/

/-- REPORT_SIZES table from hid_writer.c: payload capacity per report id. -/
def report_size (i : ℕ) : ℕ := [0, 32, 62, 254, 510, 1022, 2046].getD i 0

/-- pick_report_id from hid_writer.c: first report id (scanning 1..6) whose
capacity holds the data; falls back to 6. -/
def pick_report_id (data_size : ℕ) : ℕ :=
  if data_size ≤ 32 then 1
  else if data_size ≤ 62 then 2
  else if data_size ≤ 254 then 3
  else if data_size ≤ 510 then 4
  else if data_size ≤ 1022 then 5
  else 6

/-- Truncation toward zero, the semantics of C's (int) cast on a real value. -/
def truncZ (q : ℚ) : ℤ := if q < 0 then ⌈q⌉ else ⌊q⌋

/-- mm_to_firmware from hid_writer.c: val = (int)(mm / 4.0f * 255.0f + 0.5f),
clamped below to 7 and above to 255, returned as a byte. -/
def mm_to_firmware (mm : ℚ) : ℕ :=
  let val : ℤ := truncZ (mm / 4 * 255 + 1/2)
  let val : ℤ := if val < 7 then 7 else val
  let val : ℤ := if val > 255 then 255 else val
  val.toNat

/-- firmware_to_mm from hid_writer.c: (float)val / 255.0f * 4.0f. -/
def firmware_to_mm (val : ℕ) : ℚ := (val : ℚ) / 255 * 4

/-- linear_key_index from hid_writer.c: ((row & 7) << 5) | (col & 31). -/
def linear_key_index (row col : ℕ) : ℕ := ((row &&& 7) <<< 5) ||| (col &&& 31)

/-- encode_key_entry from hid_writer.c: (uint16)((fw << 8) | index); the
argument is a uint8 so it is reduced mod 256 and the result mod 2^16. -/
def encode_key_entry (firmware_val row col : ℕ) : ℕ :=
  (((firmware_val % 256) <<< 8) ||| linear_key_index row col) % 65536

/-- The while loop of encode_varint, peeling one 7-bit group per step.  The
first argument bounds the remaining iterations: the C argument is a uint32,
and after four shifts by 7 a uint32 is below 0x80, so the loop body runs at
most four times before the final byte is emitted. -/
def encode_varint_loop : ℕ → ℕ → List ℕ
  | 0, value => [value &&& 0x7F]
  | fuel + 1, value =>
    if value > 0x7F then
      ((value &&& 0x7F) ||| 0x80) :: encode_varint_loop fuel (value >>> 7)
    else
      [value &&& 0x7F]

/-- encode_varint from hid_writer.c: little-endian 7-bit groups, high bit set
on all but the last byte; the argument is a uint32 so it is reduced mod 2^32,
which also makes four loop iterations enough. -/
def encode_varint (value : ℕ) : List ℕ :=
  encode_varint_loop 4 (value % 2 ^ 32)

/-- KeySetting from hid_writer.h: row, col and a depth in millimetres. -/
structure KeySetting where
  row : ℕ
  col : ℕ
  mm : ℚ
deriving DecidableEq

/-- The inner loop of build_partial_proto: per key, check the 512-byte inner
buffer bound, then emit tag 0x08 followed by the varint of the entry. -/
def build_inner : List KeySetting → ℕ → Option (List ℕ)
  | [], _ => some []
  | k :: ks, len =>
    if len + 4 > 512 then none
    else
      let entry := 0x08 :: encode_varint (encode_key_entry (mm_to_firmware k.mm) k.row k.col)
      (build_inner ks (len + entry.length)).map (entry ++ ·)

/-- build_partial_proto from hid_writer.c: wrap the inner entries in field
tag 0x12 followed by the varint of their length, with the output-buffer
overflow check. -/
def build_partial_proto (keys : List KeySetting) (buf_size : ℕ) : Option (List ℕ) :=
  match build_inner keys 0 with
  | none => none
  | some inner =>
    if 1 + 5 + inner.length > buf_size then none
    else some (0x12 :: (encode_varint inner.length ++ inner))

/-- The buffer constructed by send_data in hid_writer.c: report id, magic
bytes 0xD1 0xDA, command, options, little-endian body length, the payload,
then zero padding up to the report capacity (calloc zeroes the buffer). -/
def send_data_frame (cmd options : ℕ) (proto : List ℕ) : List ℕ :=
  let data_size := 6 + proto.length
  let rid := pick_report_id data_size
  let pad_size := report_size rid
  let header := [rid, 0xD1, 0xDA, cmd % 256, options % 256,
                 proto.length % 256, (proto.length >>> 8) % 256]
  header ++ proto ++ List.replicate (1 + pad_size - 7 - proto.length) 0

/-- CMD_ACTUATION from hid_writer.h. -/
def CMD_ACTUATION : ℕ := 21
/-- CMD_RAPID_TRIGGER from hid_writer.h. -/
def CMD_RAPID_TRIGGER : ℕ := 25

/-- wooting_hid_write_actuation from hid_writer.c, as a pure function from
the arguments to the success flag and the list of frames put on the wire
(the hidapi transport itself is abstracted as succeeding).  The device
handle carries no data relevant to the frame, so it is modelled as
Option Unit; the guard `!dev || !keys || count <= 0` is the first line. -/
def wooting_hid_write_actuation (dev : Option Unit) (profile_idx : ℤ)
    (keys : Option (List KeySetting)) (count : ℤ) (save : Bool) :
    Bool × List (List ℕ) :=
  if dev = none ∨ keys = none ∨ count ≤ 0 then (false, [])
  else
    match keys with
    | none => (false, [])
    | some ks =>
      match build_partial_proto (ks.take count.toNat) 512 with
      | none => (false, [])
      | some proto =>
        let options := (((if save then 1 else 0) ||| ((profile_idx.toNat) <<< 1)) : ℕ) % 256
        (true, [send_data_frame CMD_ACTUATION options proto])

/-- wooting_hid_write_rt from hid_writer.c; identical to the actuation write
except for the command byte. -/
def wooting_hid_write_rt (dev : Option Unit) (profile_idx : ℤ)
    (keys : Option (List KeySetting)) (count : ℤ) (save : Bool) :
    Bool × List (List ℕ) :=
  if dev = none ∨ keys = none ∨ count ≤ 0 then (false, [])
  else
    match keys with
    | none => (false, [])
    | some ks =>
      match build_partial_proto (ks.take count.toNat) 512 with
      | none => (false, [])
      | some proto =>
        let options := (((if save then 1 else 0) ||| ((profile_idx.toNat) <<< 1)) : ℕ) % 256
        (true, [send_data_frame CMD_RAPID_TRIGGER options proto])

/-! ## Policy math (main.c) -/

/-- VEL_AGGRO_ZONE constant from main.c (0.50f). -/
def VEL_AGGRO_ZONE : ℚ := 1/2
/-- VEL_MIN_AP_FACTOR constant from main.c (0.5f). -/
def VEL_MIN_AP_FACTOR : ℚ := 1/2
/-- PHASE_ULTRA_MS constant from main.c (80.0). -/
def PHASE_ULTRA_MS : ℚ := 80
/-- PHASE_DECAY_MS constant from main.c (200.0). -/
def PHASE_DECAY_MS : ℚ := 200

/-- vel_scale_ap from main.c: below the aggro zone return base_ap, above it
scale linearly down to VEL_MIN_AP_FACTOR of base, flooring at 0.15. -/
def vel_scale_ap (base_ap velFrac : ℚ) : ℚ :=
  if velFrac < VEL_AGGRO_ZONE then base_ap
  else
    let t := (velFrac - VEL_AGGRO_ZONE) / (1 - VEL_AGGRO_ZONE)
    let factor := 1 - t * (1 - VEL_MIN_AP_FACTOR)
    let result := base_ap * factor
    if result < 3/20 then 3/20 else result

/-- phase_decay_ap from main.c: 0.15 before PHASE_ULTRA_MS, base_ap after
PHASE_DECAY_MS, linear interpolation between. -/
def phase_decay_ap (base_ap counter_ms : ℚ) : ℚ :=
  let min_ap : ℚ := 3/20
  if counter_ms < PHASE_ULTRA_MS then min_ap
  else if counter_ms > PHASE_DECAY_MS then base_ap
  else
    let t := (counter_ms - PHASE_ULTRA_MS) / (PHASE_DECAY_MS - PHASE_ULTRA_MS)
    min_ap + t * (base_ap - min_ap)

/-! ## Velocity estimator (main.c) -/

/-- SV_FRICTION constant from main.c (5.2f). -/
def SV_FRICTION : ℚ := 52/10
/-- SV_ACCELERATE constant from main.c (5.5f). -/
def SV_ACCELERATE : ℚ := 55/10
/-- SV_STOPSPEED constant from main.c (80.0f). -/
def SV_STOPSPEED : ℚ := 80

/-- VelEstimator struct from main.c; last_update holds the raw
performance-counter reading. -/
structure VelEstimator where
  vel : ℚ
  max_speed : ℚ
  last_update : ℚ

/-- The clamp at the end of vel_update in main.c: if |vel| exceeds
max_speed, saturate at the signed max_speed. -/
def vel_clamp (max_speed v : ℚ) : ℚ :=
  if |v| > max_speed then (if v > 0 then max_speed else -max_speed) else v

/-- The snap at the end of vel_update in main.c: values with |vel| below
0.5 become exactly 0. -/
def vel_snap (v : ℚ) : ℚ := if |v| < 1/2 then 0 else v

/-- The body of vel_update from main.c once the elapsed-time guard has
passed: friction, binary wish direction, acceleration, then clamp to
max_speed and snap below 0.5 to zero; returns the new velocity. -/
def vel_update_core (vel pos_analog neg_analog max_speed dt : ℚ) : ℚ :=
  let pos_key := pos_analog > DEAD_ZONE
  let neg_key := neg_analog > DEAD_ZONE
  let speed := |vel|
  let vel1 :=
    if speed > 1/1000 then
      let control := if speed < SV_STOPSPEED then SV_STOPSPEED else speed
      let drop := control * SV_FRICTION * dt
      let new_speed := speed - drop
      let new_speed := if new_speed < 0 then 0 else new_speed
      vel * (new_speed / speed)
    else vel
  let wish : ℚ :=
    if pos_key ∧ ¬neg_key then 1
    else if neg_key ∧ ¬pos_key then -1
    else 0
  let vel2 :=
    if wish ≠ 0 then
      let current_in_wish := vel1 * wish
      let add_speed := max_speed - current_in_wish
      if add_speed > 0 then
        let accel_speed := SV_ACCELERATE * dt * max_speed
        let accel_speed := if accel_speed > add_speed then add_speed else accel_speed
        vel1 + accel_speed * wish
      else vel1
    else vel1
  vel_snap (vel_clamp max_speed vel2)

/-- vel_update from main.c: elapsed time from the counter delta over the
frequency, skip (stamping the time) outside (0, 0.1], otherwise run the
friction/acceleration/clamp body. -/
def vel_update (ve : VelEstimator) (pos_analog neg_analog max_speed now freq : ℚ) :
    VelEstimator :=
  let ve := { ve with max_speed := max_speed }
  let elapsed := (now - ve.last_update) / freq
  if elapsed ≤ 0 ∨ elapsed > 1/10 then { ve with last_update := now }
  else
    { ve with last_update := now,
              vel := vel_update_core ve.vel pos_analog neg_analog max_speed elapsed }

/-- One sampled input to the velocity estimator: the two analog depths and
the performance-counter reading for the step. -/
structure VelInput where
  pos : ℚ
  neg : ℚ
  now : ℚ

/-- A finite run of vel_update with a fixed weapon max_speed and counter
frequency. -/
def vel_run (max_speed freq : ℚ) (ve : VelEstimator) (steps : List VelInput) :
    VelEstimator :=
  steps.foldl (fun v i => vel_update v i.pos i.neg max_speed i.now freq) ve

/-! ## Axis state machine (main.c) -/

/-- AxisState enum from main.c. -/
inductive AxisState where
  | idle
  | strafePos
  | strafeNeg
  | counterPos
  | counterNeg
deriving DecidableEq, Repr

/-- Axis struct from main.c. The 4-entry jiggle_times ring buffer of
counter-strafe entry timestamps is unrolled into the four fields
jt0..jt3. -/
structure Axis where
  state : AxisState
  prev : AxisState
  pos_peak : ℚ
  neg_peak : ℚ
  predictive : Bool
  counter_start : ℚ
  counter_ms : ℚ
  counter_count : ℕ
  counter_total_ms : ℚ
  jt0 : ℚ
  jt1 : ℚ
  jt2 : ℚ
  jt3 : ℚ
  jiggle_idx : ℕ
  is_jiggle : Bool
  jiggle_last : ℚ

/-- The zero-initialised Axis the main loop starts from (AimContext ctx = {0}). -/
def axis_init : Axis :=
  { state := .idle, prev := .idle, pos_peak := 0, neg_peak := 0,
    predictive := false, counter_start := 0, counter_ms := 0,
    counter_count := 0, counter_total_ms := 0,
    jt0 := 0, jt1 := 0, jt2 := 0, jt3 := 0, jiggle_idx := 0,
    is_jiggle := false, jiggle_last := 0 }

/-- JIGGLE_WINDOW_MS constant from main.c. -/
def JIGGLE_WINDOW_MS : ℚ := 300
/-- JIGGLE_MIN_COUNT constant from main.c. -/
def JIGGLE_MIN_COUNT : ℕ := 2
/-- JIGGLE_PREARM_MS constant from main.c. -/
def JIGGLE_PREARM_MS : ℚ := 300

/-- WeaponCategory enum from main.c. -/
inductive WeaponCategory where
  | rifle
  | awp
  | pistol
  | smg
  | knife
  | other
deriving DecidableEq, Repr

/-- The configuration record from main.c restricted to the fields the
embedded functions read; defaults follow the g_cfg initialiser. -/
structure Config where
  ap_normal : ℚ
  ap_aggro : ℚ
  rt_normal : ℚ
  rt_aggro : ℚ
  write_interval_ms : ℚ
  predict_threshold : ℚ
  predict_min_peak : ℚ
  crouch_rt_factor : ℚ
  ws_adaptive : Bool
  weapon_ap : WeaponCategory → ℚ
  weapon_rt : WeaponCategory → ℚ
  vel_enabled : Bool
  jiggle_enabled : Bool
  vel_scale_enabled : Bool
  phase_decay : Bool

/-- The switch statement of axis_update in main.c, after prev has been
stamped and predictive cleared. -/
def axis_switch (cfg : Config) (freq : ℚ) (ax : Axis)
    (pos neg prev_pos prev_neg now : ℚ) : Axis :=
  let pp := pos > DEAD_ZONE
  let np := neg > DEAD_ZONE
  let pr := pos > DEAD_ZONE ∧ prev_pos ≤ DEAD_ZONE
  let nr := neg > DEAD_ZONE ∧ prev_neg ≤ DEAD_ZONE
  match ax.state with
  | .idle =>
    let ax := if pp ∧ ¬np then
        { ax with state := .strafePos, pos_peak := pos, neg_peak := 0 } else ax
    if np ∧ ¬pp then
        { ax with state := .strafeNeg, neg_peak := neg, pos_peak := 0 } else ax
  | .strafePos =>
    if ¬pp ∧ ¬np then { ax with state := .idle }
    else
      let ax := if pos > ax.pos_peak then { ax with pos_peak := pos } else ax
      let ax := if ax.pos_peak > cfg.predict_min_peak ∧
                   pos < ax.pos_peak * cfg.predict_threshold then
          { ax with predictive := true } else ax
      if nr then { ax with state := .counterNeg, counter_start := now } else ax
  | .strafeNeg =>
    if ¬pp ∧ ¬np then { ax with state := .idle }
    else
      let ax := if neg > ax.neg_peak then { ax with neg_peak := neg } else ax
      let ax := if ax.neg_peak > cfg.predict_min_peak ∧
                   neg < ax.neg_peak * cfg.predict_threshold then
          { ax with predictive := true } else ax
      if pr then { ax with state := .counterPos, counter_start := now } else ax
  | .counterPos | .counterNeg =>
    let ax := { ax with counter_ms := (now - ax.counter_start) * 1000 / freq }
    if ¬pp ∧ ¬np then { ax with state := .idle }
    else if pp ∧ ¬np then { ax with state := .strafePos, pos_peak := pos }
    else if np ∧ ¬pp then { ax with state := .strafeNeg, neg_peak := neg }
    else ax

/-- The counter-strafe exit bookkeeping block of axis_update in main.c. -/
def axis_counter_exit (ax : Axis) : Axis :=
  if ax.state ≠ ax.prev ∧ (ax.prev = .counterPos ∨ ax.prev = .counterNeg) then
    { ax with counter_count := ax.counter_count + 1,
              counter_total_ms := ax.counter_total_ms + ax.counter_ms }
  else ax

/-- The jiggle-peek recording block of axis_update in main.c: on entering a
COUNTER_* state, stamp the ring slot jiggle_idx & 3 and raise is_jiggle when
at least JIGGLE_MIN_COUNT stamped entries are younger than the window. -/
def axis_jiggle_record (freq : ℚ) (ax : Axis) (now : ℚ) : Axis :=
  if ax.state ≠ ax.prev ∧ (ax.state = .counterPos ∨ ax.state = .counterNeg) then
    let idx := ax.jiggle_idx % 4
    let t0 := if idx = 0 then now else ax.jt0
    let t1 := if idx = 1 then now else ax.jt1
    let t2 := if idx = 2 then now else ax.jt2
    let t3 := if idx = 3 then now else ax.jt3
    let age_ok := fun t : ℚ =>
      if t ≠ 0 ∧ (now - t) * 1000 / freq < JIGGLE_WINDOW_MS then 1 else 0
    let recent : ℕ := age_ok t0 + age_ok t1 + age_ok t2 + age_ok t3
    let ax := { ax with jt0 := t0, jt1 := t1, jt2 := t2, jt3 := t3,
                        jiggle_idx := (ax.jiggle_idx + 1) % 2147483648 }
    if JIGGLE_MIN_COUNT ≤ recent then
      { ax with is_jiggle := true, jiggle_last := now }
    else ax
  else ax

/-- The jiggle-expiry block of axis_update in main.c. -/
def axis_jiggle_expire (freq : ℚ) (ax : Axis) (now : ℚ) : Axis :=
  if ax.is_jiggle ∧ (now - ax.jiggle_last) * 1000 / freq > JIGGLE_PREARM_MS then
    { ax with is_jiggle := false }
  else ax

/-- axis_update from main.c: stamp prev and clear predictive, run the state
switch, then the counter-exit bookkeeping, the jiggle recording and the
jiggle expiry, in the order of the C statements.  Every
QueryPerformanceCounter call in the body is modelled by the single tick
value `now`. -/
def axis_update (cfg : Config) (freq : ℚ) (ax : Axis)
    (pos neg prev_pos prev_neg now : ℚ) : Axis :=
  axis_jiggle_expire freq
    (axis_jiggle_record freq
      (axis_counter_exit
        (axis_switch cfg freq { ax with prev := ax.state, predictive := false }
          pos neg prev_pos prev_neg now))
      now)
    now

/-- One sampled input to axis_update as the main loop supplies it: current
and previous analog depths for the two directions, and the tick value. -/
structure AxisInput where
  pos : ℚ
  neg : ℚ
  prev_pos : ℚ
  prev_neg : ℚ
  now : ℚ

/-- A finite run of axis_update. -/
def axis_run (cfg : Config) (freq : ℚ) (ax : Axis) (steps : List AxisInput) : Axis :=
  steps.foldl (fun a i => axis_update cfg freq a i.pos i.neg i.prev_pos i.prev_neg i.now) ax

/-! ## Adaptive policy (main.c update_targets) -/

/-- The default configuration, following the g_cfg initialiser in main.c. -/
def default_cfg : Config :=
  { ap_normal := 12/10, ap_aggro := 4/10, rt_normal := 1, rt_aggro := 1/10,
    write_interval_ms := 50, predict_threshold := 7/10, predict_min_peak := 3/10,
    crouch_rt_factor := 1/2, ws_adaptive := false,
    weapon_ap := fun c => match c with
      | .rifle => 4/10 | .awp => 8/10 | .pistol => 3/10
      | .smg => 5/10 | .knife => 15/10 | .other => 1,
    weapon_rt := fun c => match c with
      | .rifle => 1/10 | .awp => 4/10 | .pistol => 1/10
      | .smg => 2/10 | .knife => 1 | .other => 5/10,
    vel_enabled := true, jiggle_enabled := true,
    vel_scale_enabled := true, phase_decay := true }

/-- The part of GSIState that update_targets snapshots under the lock. -/
structure GsiSnapshot where
  weapon_cat : WeaponCategory
  round_phase : String
  weapon_speed : ℚ
  connected : Bool

/-- Four per-key values indexed forward (W), left (A), back (S), right (D),
the K_W/K_A/K_S/K_D slots of the C arrays. -/
structure K4 where
  kw : ℚ
  ka : ℚ
  ks : ℚ
  kd : ℚ
deriving DecidableEq, Repr

/-- All four slots holding the same value. -/
def K4.const (x : ℚ) : K4 := ⟨x, x, x, x⟩

/-- The fields of AimContext that update_targets reads and writes. -/
structure PolicyCtx where
  h : Axis
  v : Axis
  crouching : Bool
  target_ap : K4
  target_rt : K4
  needs_write : Bool

/-- get_base_aggro from main.c: weapon profile when GSI is active, otherwise
the base aggressive pair.  The C guard weapon_cat < WCAT_COUNT always holds
for a value of the enum. -/
def get_base_aggro (cfg : Config) (gsi : GsiSnapshot) : ℚ × ℚ :=
  if gsi.connected then (cfg.weapon_ap gsi.weapon_cat, cfg.weapon_rt gsi.weapon_cat)
  else (cfg.ap_aggro, cfg.rt_aggro)

/-- The crouch modifier loop body from update_targets: tighten RT (never
below base_rt) and relax AP 30% of the way to ap_normal. -/
def crouch_adjust (cfg : Config) (base_rt apv rtv : ℚ) : ℚ × ℚ :=
  let crt := rtv * cfg.crouch_rt_factor
  let crt := if crt < base_rt then base_rt else crt
  let apv := if apv < cfg.ap_normal then apv + (cfg.ap_normal - apv) * (3/10) else apv
  (apv, crt)

/-- The depth computation of update_targets in main.c outside the early
exit: velocity-scaled AP, the per-axis switches and the crouch modifier.
The GSI snapshot is an input instead of a locked read; `total_vel` stands
for the scalar sqrtf(vel_h^2 + vel_v^2) computed in the C body — the policy
depends on the velocities only through this square root, which is
irrational over ℚ, so the scalar itself is the input. -/
def policy_depths (cfg : Config) (gsi : GsiSnapshot) (total_vel : ℚ)
    (ctx : PolicyCtx) : K4 × K4 :=
      let ap : K4 := K4.const cfg.ap_normal
      let rt : K4 := K4.const cfg.rt_normal
      let (base_ap, base_rt) := get_base_aggro cfg gsi
      let vel_ap :=
        if cfg.vel_scale_enabled ∧ cfg.vel_enabled then
          let max_spd := if gsi.weapon_speed > 0 then gsi.weapon_speed else 225
          let threshold := max_spd * (34/100)
          let velFrac := if threshold > 0 then total_vel / threshold else 0
          let velFrac := if velFrac > 1 then 1 else velFrac
          vel_scale_ap base_ap velFrac
        else base_ap
      let (ap, rt) :=
        match ctx.h.state with
        | .idle =>
          if cfg.jiggle_enabled ∧ ctx.h.is_jiggle then
            ({ ap with ka := vel_ap, kd := vel_ap },
             { rt with ka := base_rt, kd := base_rt })
          else (ap, rt)
        | .strafePos =>
          let rt := { rt with kd := base_rt }
          let ap := { ap with ka := vel_ap }
          if ctx.h.predictive ∨ (cfg.jiggle_enabled ∧ ctx.h.is_jiggle) then
            (ap, { rt with ka := base_rt })
          else (ap, rt)
        | .strafeNeg =>
          let rt := { rt with ka := base_rt }
          let ap := { ap with kd := vel_ap }
          if ctx.h.predictive ∨ (cfg.jiggle_enabled ∧ ctx.h.is_jiggle) then
            (ap, { rt with kd := base_rt })
          else (ap, rt)
        | .counterPos =>
          let c_ap := if cfg.phase_decay then phase_decay_ap vel_ap ctx.h.counter_ms
                      else vel_ap
          ({ ap with kd := c_ap }, { rt with kd := base_rt, ka := base_rt })
        | .counterNeg =>
          let c_ap := if cfg.phase_decay then phase_decay_ap vel_ap ctx.h.counter_ms
                      else vel_ap
          ({ ap with ka := c_ap }, { rt with ka := base_rt, kd := base_rt })
      let (ap, rt) :=
        if cfg.ws_adaptive then
          match ctx.v.state with
          | .idle =>
            if cfg.jiggle_enabled ∧ ctx.v.is_jiggle then
              ({ ap with kw := vel_ap, ks := vel_ap },
               { rt with kw := base_rt, ks := base_rt })
            else (ap, rt)
          | .strafePos =>
            let rt := { rt with kw := base_rt }
            let ap := { ap with ks := vel_ap }
            if ctx.v.predictive ∨ (cfg.jiggle_enabled ∧ ctx.v.is_jiggle) then
              (ap, { rt with ks := base_rt })
            else (ap, rt)
          | .strafeNeg =>
            let rt := { rt with ks := base_rt }
            let ap := { ap with kw := vel_ap }
            if ctx.v.predictive ∨ (cfg.jiggle_enabled ∧ ctx.v.is_jiggle) then
              (ap, { rt with kw := base_rt })
            else (ap, rt)
          | .counterPos =>
            let c_ap := if cfg.phase_decay then phase_decay_ap vel_ap ctx.v.counter_ms
                        else vel_ap
            ({ ap with kw := c_ap }, { rt with kw := base_rt, ks := base_rt })
          | .counterNeg =>
            let c_ap := if cfg.phase_decay then phase_decay_ap vel_ap ctx.v.counter_ms
                        else vel_ap
            ({ ap with ks := c_ap }, { rt with ks := base_rt, kw := base_rt })
        else (ap, rt)
      if ctx.crouching then
        let (apw, rtw) := crouch_adjust cfg base_rt ap.kw rt.kw
        let (apa, rta) := crouch_adjust cfg base_rt ap.ka rt.ka
        let (aps, rts) := crouch_adjust cfg base_rt ap.ks rt.ks
        let (apd, rtd) := crouch_adjust cfg base_rt ap.kd rt.kd
        (⟨apw, apa, aps, apd⟩, ⟨rtw, rta, rts, rtd⟩)
      else (ap, rt)

/-- The body of update_targets from main.c around policy_depths: the
freezetime/non-combat early exit keeps the normal depths for all four keys
(the goto to the change check), and the change check stamps the computed
targets and the needs_write flag exactly when they differ from the stored
ones. -/
def update_targets (cfg : Config) (gsi : GsiSnapshot) (total_vel : ℚ)
    (ctx : PolicyCtx) : PolicyCtx :=
  let freezetime := gsi.connected ∧
      (gsi.round_phase = "freezetime" ∨ gsi.round_phase = "over")
  let non_combat := gsi.connected ∧ gsi.weapon_cat = WeaponCategory.other
  let apRt : K4 × K4 :=
    if freezetime ∨ non_combat then (K4.const cfg.ap_normal, K4.const cfg.rt_normal)
    else policy_depths cfg gsi total_vel ctx
  let changed := ¬(apRt.1 = ctx.target_ap ∧ apRt.2 = ctx.target_rt)
  if changed then
    { ctx with target_ap := apRt.1, target_rt := apRt.2, needs_write := true }
  else ctx

/-! ## Rate-limited writer (main.c do_write) -/

/-- A write put on the wire by do_write: an actuation write or a
rapid-trigger write carrying the four per-key depths. -/
inductive WMsg where
  | actuation (k : K4)
  | rapid (k : K4)
deriving DecidableEq, Repr

/-- The writer-related fields of AimContext. -/
structure WState where
  target_ap : K4
  target_rt : K4
  current_ap : K4
  current_rt : K4
  needs_write : Bool
  last_write : ℚ
  write_count : ℕ
deriving DecidableEq, Repr

/-- The change-check tail of update_targets viewed from the writer side:
adopt new computed targets and mark dirty when they differ from the stored
targets. -/
def set_targets (ap rt : K4) (s : WState) : WState :=
  if ¬(ap = s.target_ap ∧ rt = s.target_rt) then
    { s with target_ap := ap, target_rt := rt, needs_write := true }
  else s

/-- do_write from main.c: fire only when the dirty flag is set and at least
write_interval_ms elapsed since the previous write; on firing, send the
actuation write immediately followed by the matching rapid-trigger write,
copy target into current, clear the flag and stamp the time. -/
def do_write (cfg : Config) (freq now : ℚ) (s : WState) : WState × List WMsg :=
  if s.needs_write = false then (s, [])
  else
    let elapsed := (now - s.last_write) * 1000 / freq
    if elapsed < cfg.write_interval_ms then (s, [])
    else
      ({ s with current_ap := s.target_ap, current_rt := s.target_rt,
                needs_write := false, last_write := now,
                write_count := s.write_count + 1 },
       [WMsg.actuation s.target_ap, WMsg.rapid s.target_rt])

/-- One main-loop step seen by the writer: either update_targets stamps new
computed targets, or do_write runs at a tick time. -/
inductive WEvent where
  | retarget (ap rt : K4)
  | tick (now : ℚ)

/-- A run of the writer over a list of events, collecting each firing tick
as (time, messages sent). -/
def wrun (cfg : Config) (freq : ℚ) : WState → List WEvent → WState × List (ℚ × List WMsg)
  | s, [] => (s, [])
  | s, WEvent.retarget ap rt :: es => wrun cfg freq (set_targets ap rt s) es
  | s, WEvent.tick now :: es =>
    let sm := do_write cfg freq now s
    let rest := wrun cfg freq sm.1 es
    (rest.1, if sm.2 = [] then rest.2 else (now, sm.2) :: rest.2)

/-- Dispatch times spaced by the write interval: each time in the list is at
least write_interval_ms (per the do_write elapsed formula) after the
previous one, the first measured from the given last-write stamp. -/
def wspaced (cfg : Config) (freq : ℚ) : ℚ → List ℚ → Prop
  | _, [] => True
  | last, t :: ts =>
      cfg.write_interval_ms ≤ (t - last) * 1000 / freq ∧ wspaced cfg freq t ts

/-! ## Helper lemmas -/

/-- Truncation toward zero is monotone. -/
theorem truncZ_mono {a b : ℚ} (h : a ≤ b) : truncZ a ≤ truncZ b := by
  unfold truncZ
  split_ifs with ha hb hb
  · exact Int.ceil_le_ceil h
  · have h1 : (⌈a⌉ : ℤ) ≤ 0 := Int.ceil_le.2 (by push_cast; linarith)
    have h2 : (0 : ℤ) ≤ ⌊b⌋ := Int.le_floor.2 (by push_cast; linarith)
    omega
  · exact absurd (lt_of_le_of_lt h hb) (not_lt.2 (not_lt.1 ha))
  · exact Int.floor_le_floor h

/-- Truncation toward zero agrees with the floor on nonnegative input. -/
theorem truncZ_of_nonneg {a : ℚ} (h : 0 ≤ a) : truncZ a = ⌊a⌋ := by
  unfold truncZ
  rw [if_neg (not_lt.2 h)]

/-- In the scaled zone the velocity-scaled AP is the floor 0.15 joined with
the linear ramp base_ap * (3/2 - r). -/
theorem vel_scale_ap_eq_of_ge {b r : ℚ} (h : ¬ r < 1/2) :
    vel_scale_ap b r = max (3/20) (b * (3/2 - r)) := by
  have h2 : ¬ r < VEL_AGGRO_ZONE := by simpa [VEL_AGGRO_ZONE] using h
  simp only [vel_scale_ap, if_neg h2, VEL_AGGRO_ZONE, VEL_MIN_AP_FACTOR]
  have he : b * (1 - (r - 1/2) / (1 - 1/2) * (1 - 1/2)) = b * (3/2 - r) := by ring
  rw [he]
  rcases lt_or_le (b * (3/2 - r)) (3/20) with hlt | hle
  · rw [if_pos hlt, max_eq_left (le_of_lt hlt), if_neg h]
  · rw [if_neg (not_lt.2 hle), max_eq_right hle, if_neg h]

theorem q_le_015_015 : (3:ℚ)/20 ≤ 3/20 := le_refl _
theorem q_le_0_80 : (0:ℚ) ≤ 80 := by norm_num
theorem q_le_200_200 : (200:ℚ) ≤ 200 := le_refl _
theorem q_le_15_195 : (1:ℚ)/5 ≤ 19/5 := by norm_num
theorem q_le_15_15 : (1:ℚ)/5 ≤ 1/5 := le_refl _
theorem q_le_0_215 : (0:ℚ) ≤ 215 := by norm_num

/-! ## Claim theorems -/

/-- C4 (counterexample): phase_decay_ap is not monotone non-decreasing in
elapsed time for every base_ap.  At base_ap = 0.1 < 0.15 the value at 80 ms
is 0.15 while the value at 200 ms is 0.1, so the function decreases on
[80, 200] even though 80 ≤ 200. -/
theorem phase_decay_ap_not_monotone :
    (80:ℚ) ≤ 200 ∧
    phase_decay_ap (1/10) 80 = 3/20 ∧
    phase_decay_ap (1/10) 200 = 1/10 ∧
    ¬ phase_decay_ap (1/10) 80 ≤ phase_decay_ap (1/10) 200 := by
  refine ⟨by norm_num, ?_, ?_, ?_⟩ <;>
    norm_num [phase_decay_ap, PHASE_ULTRA_MS, PHASE_DECAY_MS]

/-- C4 (amended): phase_decay_ap is monotone non-decreasing in elapsed_ms
whenever base_ap ≥ 0.15; for every base_ap it equals 0.15 on [0, 80] and
equals base_ap on [200, ∞). -/
theorem phase_decay_ap_props :
    (∀ base_ap m1 m2 : ℚ, 3/20 ≤ base_ap → m1 ≤ m2 →
        phase_decay_ap base_ap m1 ≤ phase_decay_ap base_ap m2) ∧
    (∀ base_ap ms : ℚ, 0 ≤ ms → ms ≤ 80 → phase_decay_ap base_ap ms = 3/20) ∧
    (∀ base_ap ms : ℚ, 200 ≤ ms → phase_decay_ap base_ap ms = base_ap) := by
  refine ⟨?_, ?_, ?_⟩
  · intro b m1 m2 hb h12
    simp only [phase_decay_ap, PHASE_ULTRA_MS, PHASE_DECAY_MS]
    split_ifs with h1 h2 h3 h4 h5 h6 h7 h8 <;>
      try linarith
    · nlinarith [mul_nonneg (by linarith : (0:ℚ) ≤ m2 - 80) (by linarith : (0:ℚ) ≤ b - 3/20)]
    · nlinarith [mul_nonneg (by linarith : (0:ℚ) ≤ 200 - m1) (by linarith : (0:ℚ) ≤ b - 3/20)]
    · nlinarith [mul_nonneg (by linarith : (0:ℚ) ≤ m2 - m1) (by linarith : (0:ℚ) ≤ b - 3/20)]
  · intro b ms h0 h80
    simp only [phase_decay_ap, PHASE_ULTRA_MS, PHASE_DECAY_MS]
    split_ifs with h1 h2
    · rfl
    · linarith
    · have : ms = 80 := le_antisymm h80 (not_lt.1 h1)
      subst this
      ring
  · intro b ms h200
    simp only [phase_decay_ap, PHASE_ULTRA_MS, PHASE_DECAY_MS]
    split_ifs with h1 h2
    · linarith
    · rfl
    · have : ms = 200 := le_antisymm (not_lt.1 h2) h200
      subst this
      ring

/-- C4 (witness): the amended theorem applied at base_ap = 0.15 and
concrete times. -/
theorem phase_decay_ap_props_witness :
    phase_decay_ap (3/20) 0 ≤ phase_decay_ap (3/20) 80 ∧
    phase_decay_ap (3/20) 0 = 3/20 ∧
    phase_decay_ap (3/20) 200 = 3/20 :=
  ⟨phase_decay_ap_props.1 (3/20) 0 80 q_le_015_015 q_le_0_80,
   phase_decay_ap_props.2.1 (3/20) 0 (le_refl 0) q_le_0_80,
   phase_decay_ap_props.2.2 (3/20) 200 q_le_200_200⟩

/-- C5 (counterexample): vel_scale_ap can return a value below the 0.15
floor: at base_ap = 0.1 and vel_ratio = 0.3 (inside [0, 1]) the function
returns base_ap = 0.1 < 0.15 because the floor is applied only in the
scaled branch. -/
theorem vel_scale_ap_below_floor :
    (0:ℚ) ≤ 3/10 ∧ (3:ℚ)/10 ≤ 1 ∧
    vel_scale_ap (1/10) (3/10) = 1/10 ∧
    ¬ (3:ℚ)/20 ≤ vel_scale_ap (1/10) (3/10) := by
  refine ⟨by norm_num, by norm_num, ?_, ?_⟩ <;>
    norm_num [vel_scale_ap, VEL_AGGRO_ZONE, VEL_MIN_AP_FACTOR]

/-- C5 (amended): for base_ap ≥ 0.15, vel_scale_ap equals base_ap on
vel_ratio ∈ [0, 0.5], is monotone non-increasing on [0, 1], and never goes
below 0.15. -/
theorem vel_scale_ap_props :
    (∀ base_ap r : ℚ, 3/20 ≤ base_ap → 0 ≤ r → r ≤ 1/2 →
        vel_scale_ap base_ap r = base_ap) ∧
    (∀ base_ap r1 r2 : ℚ, 3/20 ≤ base_ap → 0 ≤ r1 → r1 ≤ r2 → r2 ≤ 1 →
        vel_scale_ap base_ap r2 ≤ vel_scale_ap base_ap r1) ∧
    (∀ base_ap r : ℚ, 3/20 ≤ base_ap → 0 ≤ r → r ≤ 1 →
        3/20 ≤ vel_scale_ap base_ap r) := by
  refine ⟨?_, ?_, ?_⟩
  · intro b r hb h0 hr
    simp only [vel_scale_ap, VEL_AGGRO_ZONE, VEL_MIN_AP_FACTOR]
    split_ifs with h1 h2
    · rfl
    · have : r = 1/2 := le_antisymm hr (not_lt.1 h1)
      subst this
      nlinarith
    · have : r = 1/2 := le_antisymm hr (not_lt.1 h1)
      subst this
      ring_nf
  · intro b r1 r2 hb h0 h12 h1
    have hb0 : (0:ℚ) ≤ b := by linarith
    by_cases ha2 : r2 < 1/2
    · have ha1 : r1 < 1/2 := lt_of_le_of_lt h12 ha2
      simp only [vel_scale_ap, VEL_AGGRO_ZONE, if_pos ha1, if_pos ha2, le_refl]
    · rw [vel_scale_ap_eq_of_ge ha2]
      by_cases ha1 : r1 < 1/2
      · simp only [vel_scale_ap, VEL_AGGRO_ZONE, if_pos ha1]
        refine max_le hb ?_
        nlinarith [mul_nonneg hb0 (by linarith : (0:ℚ) ≤ r2 - 1/2)]
      · rw [vel_scale_ap_eq_of_ge ha1]
        exact max_le_max (le_refl _)
          (mul_le_mul_of_nonneg_left (by linarith) hb0)
  · intro b r hb h0 h1
    simp only [vel_scale_ap, VEL_AGGRO_ZONE, VEL_MIN_AP_FACTOR]
    split_ifs with hc hd
    · linarith
    · linarith
    · linarith

/-- C5 (witness): the amended theorem applied at base_ap = 0.15 and
concrete ratios. -/
theorem vel_scale_ap_props_witness :
    vel_scale_ap (3/20) 0 = 3/20 ∧
    vel_scale_ap (3/20) 0 ≤ vel_scale_ap (3/20) 0 ∧
    (3:ℚ)/20 ≤ vel_scale_ap (3/20) 0 :=
  ⟨vel_scale_ap_props.1 (3/20) 0 q_le_015_015 (le_refl 0) (by simp),
   vel_scale_ap_props.2.1 (3/20) 0 0 q_le_015_015 (le_refl 0) (le_refl 0) (by simp),
   vel_scale_ap_props.2.2 (3/20) 0 q_le_015_015 (le_refl 0) (by simp)⟩

/-- C9: mm_to_firmware is monotone non-decreasing, always lands in
[7, 255], and for x ∈ [0.2, 3.8] millimetres the firmware-and-back round
trip differs from x by at most 0.02 mm. -/
theorem mm_to_firmware_props :
    (∀ m1 m2 : ℚ, m1 ≤ m2 → mm_to_firmware m1 ≤ mm_to_firmware m2) ∧
    (∀ mm : ℚ, 7 ≤ mm_to_firmware mm ∧ mm_to_firmware mm ≤ 255) ∧
    (∀ x : ℚ, 1/5 ≤ x → x ≤ 19/5 →
        |firmware_to_mm (mm_to_firmware x) - x| ≤ 1/50) := by
  refine ⟨?_, ?_, ?_⟩
  · intro m1 m2 h
    have ht : truncZ (m1 / 4 * 255 + 1/2) ≤ truncZ (m2 / 4 * 255 + 1/2) :=
      truncZ_mono (by linarith)
    simp only [mm_to_firmware]
    split_ifs <;> omega
  · intro mm
    simp only [mm_to_firmware]
    split_ifs <;> omega
  · intro x hx1 hx2
    have hy0 : (0:ℚ) ≤ x / 4 * 255 + 1/2 := by linarith
    have htr : truncZ (x / 4 * 255 + 1/2) = ⌊x / 4 * 255 + 1/2⌋ := truncZ_of_nonneg hy0
    set n : ℤ := ⌊x / 4 * 255 + 1/2⌋ with hn
    have hfl : (n : ℚ) ≤ x / 4 * 255 + 1/2 := Int.floor_le _
    have hfl2 : x / 4 * 255 + 1/2 < (n : ℚ) + 1 := Int.lt_floor_add_one _
    have hn13 : (13:ℤ) ≤ n := Int.le_floor.2 (by push_cast; linarith)
    have hn242 : n ≤ 242 := by
      have : (n : ℚ) < 243 := by linarith
      exact_mod_cast Int.lt_add_one_iff.1 (by exact_mod_cast this)
    have hmm : mm_to_firmware x = n.toNat := by
      simp only [mm_to_firmware, htr]
      rw [if_neg (by omega), if_neg (by omega)]
    rw [hmm]
    have hcast : ((n.toNat : ℕ) : ℚ) = (n : ℚ) := by
      exact_mod_cast congrArg (fun z : ℤ => (z : ℚ)) (Int.toNat_of_nonneg (by omega))
    simp only [firmware_to_mm, hcast]
    rw [abs_le]
    constructor <;> nlinarith

/-- C9 (witness): the theorem applied at concrete inputs: equal depths for
monotonicity, 1 mm for the bounds, and x = 0.2 mm for the round trip. -/
theorem mm_to_firmware_props_witness :
    mm_to_firmware 1 ≤ mm_to_firmware 1 ∧
    (7 ≤ mm_to_firmware 1 ∧ mm_to_firmware 1 ≤ 255) ∧
    |firmware_to_mm (mm_to_firmware (1/5)) - 1/5| ≤ 1/50 :=
  ⟨mm_to_firmware_props.1 1 1 (le_refl 1),
   mm_to_firmware_props.2.1 1,
   mm_to_firmware_props.2.2 (1/5) q_le_15_15 q_le_15_195⟩

/-- The clamp-then-snap tail of vel_update establishes the velocity
invariant no matter what the friction and acceleration stages produced. -/
theorem snap_clamp_inv {M : ℚ} (hM : 0 ≤ M) (v2 : ℚ) :
    |vel_snap (vel_clamp M v2)| ≤ M ∧
    (|vel_snap (vel_clamp M v2)| < 1/2 → vel_snap (vel_clamp M v2) = 0) := by
  have hcl : |vel_clamp M v2| ≤ M := by
    unfold vel_clamp
    split_ifs with h1 h2
    · rw [abs_of_nonneg hM]
    · rw [abs_neg, abs_of_nonneg hM]
    · exact not_lt.1 h1
  constructor
  · unfold vel_snap
    split_ifs with h1
    · simpa using hM
    · exact hcl
  · intro h
    unfold vel_snap at h ⊢
    split_ifs with h1
    · rfl
    · rw [if_neg h1] at h
      exact absurd h h1

/-- The vel_update body yields a velocity satisfying the invariant for any
input velocity, because it ends in the clamp-then-snap stage. -/
theorem vel_update_core_inv {M : ℚ} (hM : 0 ≤ M) (v p n dt : ℚ) :
    |vel_update_core v p n M dt| ≤ M ∧
    (|vel_update_core v p n M dt| < 1/2 → vel_update_core v p n M dt = 0) := by
  unfold vel_update_core
  exact snap_clamp_inv hM _

/-- One vel_update step preserves the velocity invariant when the weapon
max_speed is nonnegative. -/
theorem vel_update_inv {M : ℚ} (freq : ℚ) (hM : 0 ≤ M) {ve : VelEstimator}
    (h : |ve.vel| ≤ M ∧ (|ve.vel| < 1/2 → ve.vel = 0)) (p n now : ℚ) :
    |(vel_update ve p n M now freq).vel| ≤ M ∧
    (|(vel_update ve p n M now freq).vel| < 1/2 → (vel_update ve p n M now freq).vel = 0) := by
  simp only [vel_update]
  split_ifs with hs
  · simpa using h
  · simpa using vel_update_core_inv hM ve.vel p n ((now - ve.last_update) / freq)

/-- Runs of vel_update preserve the velocity invariant from any state that
satisfies it. -/
theorem vel_run_inv {M freq : ℚ} (hM : 0 ≤ M) :
    ∀ (steps : List VelInput) (ve : VelEstimator),
      (|ve.vel| ≤ M ∧ (|ve.vel| < 1/2 → ve.vel = 0)) →
      |(vel_run M freq ve steps).vel| ≤ M ∧
      (|(vel_run M freq ve steps).vel| < 1/2 → (vel_run M freq ve steps).vel = 0) := by
  intro steps
  induction steps with
  | nil => intro ve h; simpa [vel_run] using h
  | cons s ss ih =>
    intro ve h
    have hstep := vel_update_inv freq hM h s.pos s.neg s.now
    simpa [vel_run] using ih _ hstep

/-- C3: from the zero initial velocity, after any finite sequence of
vel_update calls (arbitrary analog inputs and arbitrary step times, with a
fixed nonnegative weapon max_speed) the estimated velocity lies in
[-max_speed, max_speed], and whenever it is below 0.5 in magnitude it is
exactly 0.  Quantifying over all step lists covers every intermediate
state of a longer run. -/
theorem vel_update_bounded (M freq t0 : ℚ) (steps : List VelInput) (hM : 0 ≤ M) :
    |(vel_run M freq ⟨0, M, t0⟩ steps).vel| ≤ M ∧
    (|(vel_run M freq ⟨0, M, t0⟩ steps).vel| < 1/2 →
      (vel_run M freq ⟨0, M, t0⟩ steps).vel = 0) :=
  vel_run_inv hM steps ⟨0, M, t0⟩ ⟨by simpa using hM, fun _ => rfl⟩

/-- C3 (witness): the theorem at max_speed 215, frequency 1000, one step. -/
theorem vel_update_bounded_witness :
    (0:ℚ) ≤ 215 ∧
    (|(vel_run 215 1000 ⟨0, 215, 0⟩ [⟨1, 0, 1⟩]).vel| ≤ 215 ∧
     (|(vel_run 215 1000 ⟨0, 215, 0⟩ [⟨1, 0, 1⟩]).vel| < 1/2 →
       (vel_run 215 1000 ⟨0, 215, 0⟩ [⟨1, 0, 1⟩]).vel = 0)) :=
  ⟨q_le_0_215, vel_update_bounded 215 1000 0 [⟨1, 0, 1⟩] q_le_0_215⟩

/-- The input sequence refuting the peak invariant: press the positive key,
then counter with the negative key, then release the positive key so the
axis re-enters STRAFE_NEG while the stale positive peak survives. -/
def c1_steps : List AxisInput :=
  [⟨1/2, 0, 0, 0, 1⟩, ⟨1/2, 1/2, 1/2, 0, 2⟩, ⟨0, 1/2, 1/2, 1/2, 3⟩]

/-- The axis after the first c1 step: STRAFE_POS with pos_peak 1/2. -/
def c1_a1 : Axis :=
  { axis_init with state := .strafePos, pos_peak := 1/2, neg_peak := 0 }

/-- The axis after the second c1 step: COUNTER_NEG, stale pos_peak 1/2, a
jiggle timestamp recorded in slot 0. -/
def c1_a2 : Axis :=
  { axis_init with state := .counterNeg, prev := .strafePos, pos_peak := 1/2,
                   counter_start := 2, jt0 := 2, jiggle_idx := 1 }

/-- The axis after the third c1 step: STRAFE_NEG with both peaks 1/2. -/
def c1_a3 : Axis :=
  { axis_init with state := .strafeNeg, prev := .counterNeg, pos_peak := 1/2,
                   neg_peak := 1/2, counter_start := 2, counter_ms := 1,
                   counter_count := 1, counter_total_ms := 1,
                   jt0 := 2, jiggle_idx := 1 }

/-- C1 (counterexample): after the reachable run IDLE → STRAFE_POS →
COUNTER_NEG → STRAFE_NEG from the zeroed Axis, the state is STRAFE_NEG
(outside IDLE) yet both pos_peak and neg_peak equal 1/2: the
COUNTER_* → STRAFE_* transition does not clear the opposite peak. -/
theorem axis_peaks_counterexample :
    (axis_run default_cfg 1000 axis_init c1_steps).state = AxisState.strafeNeg ∧
    (axis_run default_cfg 1000 axis_init c1_steps).pos_peak = 1/2 ∧
    (axis_run default_cfg 1000 axis_init c1_steps).neg_peak = 1/2 ∧
    ¬ ((axis_run default_cfg 1000 axis_init c1_steps).pos_peak = 0 ∨
       (axis_run default_cfg 1000 axis_init c1_steps).neg_peak = 0) := by
  have h1 : axis_update default_cfg 1000 axis_init (1/2) 0 0 0 1 = c1_a1 := by
    simp only [axis_update, axis_switch, axis_counter_exit, axis_jiggle_record,
               axis_jiggle_expire, axis_init, c1_a1, default_cfg, DEAD_ZONE,
               JIGGLE_WINDOW_MS, JIGGLE_MIN_COUNT, JIGGLE_PREARM_MS]
    norm_num
    try simp
  have h2 : axis_update default_cfg 1000 c1_a1 (1/2) (1/2) (1/2) 0 2 = c1_a2 := by
    simp only [axis_update, axis_switch, axis_counter_exit, axis_jiggle_record,
               axis_jiggle_expire, axis_init, c1_a1, c1_a2, default_cfg, DEAD_ZONE,
               JIGGLE_WINDOW_MS, JIGGLE_MIN_COUNT, JIGGLE_PREARM_MS]
    norm_num
    try simp
  have h3 : axis_update default_cfg 1000 c1_a2 0 (1/2) (1/2) (1/2) 3 = c1_a3 := by
    simp only [axis_update, axis_switch, axis_counter_exit, axis_jiggle_record,
               axis_jiggle_expire, axis_init, c1_a2, c1_a3, default_cfg, DEAD_ZONE,
               JIGGLE_WINDOW_MS, JIGGLE_MIN_COUNT, JIGGLE_PREARM_MS]
    norm_num
    try simp
  have hrun : axis_run default_cfg 1000 axis_init c1_steps = c1_a3 := by
    simp only [axis_run, c1_steps, List.foldl, h1, h2, h3]
  rw [hrun]
  norm_num [c1_a3, axis_init]

/-- C1 (amended): the IDLE → STRAFE_* transitions do clear the opposite
peak: whenever axis_update is called in IDLE, if the resulting state is
STRAFE_POS then neg_peak is 0, and if it is STRAFE_NEG then pos_peak is 0.
Across COUNTER_* → STRAFE_* transitions the opposite peak is not cleared,
so outside IDLE both peaks can be nonzero (see the counterexample). -/
theorem axis_update_idle_clears_peak (cfg : Config) (freq : ℚ) (ax : Axis)
    (pos neg prev_pos prev_neg now : ℚ) (h : ax.state = AxisState.idle) :
    ((axis_update cfg freq ax pos neg prev_pos prev_neg now).state = AxisState.strafePos →
      (axis_update cfg freq ax pos neg prev_pos prev_neg now).neg_peak = 0) ∧
    ((axis_update cfg freq ax pos neg prev_pos prev_neg now).state = AxisState.strafeNeg →
      (axis_update cfg freq ax pos neg prev_pos prev_neg now).pos_peak = 0) := by
  by_cases hpp : DEAD_ZONE < pos <;> by_cases hnp : DEAD_ZONE < neg <;>
    simp [axis_update, axis_switch, axis_counter_exit, axis_jiggle_record,
         axis_jiggle_expire, h, hpp, hnp, apply_ite]

/-- C1 (witness): the amended theorem applied to the zeroed Axis. -/
theorem axis_update_idle_clears_peak_witness :
    ((axis_update default_cfg 1000 axis_init 1 0 0 0 1).state = AxisState.strafePos →
      (axis_update default_cfg 1000 axis_init 1 0 0 0 1).neg_peak = 0) ∧
    ((axis_update default_cfg 1000 axis_init 1 0 0 0 1).state = AxisState.strafeNeg →
      (axis_update default_cfg 1000 axis_init 1 0 0 0 1).pos_peak = 0) :=
  axis_update_idle_clears_peak default_cfg 1000 axis_init 1 0 0 0 1 rfl

/-- The input sequence refuting the rising-edge requirement: hold both keys
in IDLE, then release the negative key while the positive key stays held. -/
def c2_steps : List AxisInput :=
  [⟨1/2, 1/2, 0, 0, 1⟩, ⟨1/2, 0, 1/2, 1/2, 2⟩]

/-- C2 (counterexample): from the zeroed Axis, holding both keys keeps the
axis in IDLE; on the next tick pos is still 1/2 (prev_pos = 1/2 > DEAD_ZONE,
so there is no rising edge) and neg is released, yet the state becomes
STRAFE_POS — the claim says it should remain IDLE without a rising edge. -/
theorem axis_idle_no_edge_counterexample :
    DEAD_ZONE < (1:ℚ)/2 ∧
    (axis_run default_cfg 1000 axis_init c2_steps).state = AxisState.strafePos := by
  have h1 : axis_update default_cfg 1000 axis_init (1/2) (1/2) 0 0 1 = axis_init := by
    simp only [axis_update, axis_switch, axis_counter_exit, axis_jiggle_record,
               axis_jiggle_expire, axis_init, default_cfg, DEAD_ZONE,
               JIGGLE_WINDOW_MS, JIGGLE_MIN_COUNT, JIGGLE_PREARM_MS]
    norm_num
    try simp
  have hrun : (axis_run default_cfg 1000 axis_init c2_steps).state
      = (axis_update default_cfg 1000 axis_init (1/2) 0 (1/2) (1/2) 2).state := by
    simp only [axis_run, c2_steps, List.foldl, h1]
  constructor
  · norm_num [DEAD_ZONE]
  · rw [hrun]
    simp only [axis_update, axis_switch, axis_counter_exit, axis_jiggle_record,
               axis_jiggle_expire, axis_init, default_cfg, DEAD_ZONE,
               JIGGLE_WINDOW_MS, JIGGLE_MIN_COUNT, JIGGLE_PREARM_MS]
    norm_num
    try simp

/-- C2 (amended): from IDLE, axis_update moves to STRAFE_POS exactly when
the positive direction is active and the negative one is not
(pos > DEAD_ZONE and neg ≤ DEAD_ZONE), with no rising-edge requirement on
pos; symmetrically for STRAFE_NEG. -/
theorem axis_update_idle_transition (cfg : Config) (freq : ℚ) (ax : Axis)
    (pos neg prev_pos prev_neg now : ℚ) (h : ax.state = AxisState.idle) :
    ((axis_update cfg freq ax pos neg prev_pos prev_neg now).state = AxisState.strafePos ↔
      (DEAD_ZONE < pos ∧ ¬ DEAD_ZONE < neg)) ∧
    ((axis_update cfg freq ax pos neg prev_pos prev_neg now).state = AxisState.strafeNeg ↔
      (DEAD_ZONE < neg ∧ ¬ DEAD_ZONE < pos)) := by
  by_cases hpp : DEAD_ZONE < pos <;> by_cases hnp : DEAD_ZONE < neg <;>
    simp [axis_update, axis_switch, axis_counter_exit, axis_jiggle_record,
         axis_jiggle_expire, h, hpp, hnp, apply_ite]

/-- C2 (witness): the amended theorem applied to the zeroed Axis with the
positive key pressed. -/
theorem axis_update_idle_transition_witness :
    ((axis_update default_cfg 1000 axis_init 1 0 0 0 1).state = AxisState.strafePos ↔
      (DEAD_ZONE < 1 ∧ ¬ DEAD_ZONE < 0)) ∧
    ((axis_update default_cfg 1000 axis_init 1 0 0 0 1).state = AxisState.strafeNeg ↔
      (DEAD_ZONE < 0 ∧ ¬ DEAD_ZONE < 1)) :=
  axis_update_idle_transition default_cfg 1000 axis_init 1 0 0 0 1 rfl

/-- C6: whenever the game-state cache is connected and the round phase is
"freezetime" or "over", update_targets sets all four per-key targets to the
normal depths (AP_normal, RT_normal), regardless of the axis states,
velocities, jiggle flags, crouch depth and weapon category carried by the
other inputs. -/
theorem update_targets_freezetime (cfg : Config) (gsi : GsiSnapshot)
    (total_vel : ℚ) (ctx : PolicyCtx) (hconn : gsi.connected = true)
    (hphase : gsi.round_phase = "freezetime" ∨ gsi.round_phase = "over") :
    (update_targets cfg gsi total_vel ctx).target_ap = K4.const cfg.ap_normal ∧
    (update_targets cfg gsi total_vel ctx).target_rt = K4.const cfg.rt_normal := by
  have hcond : (gsi.connected = true ∧
      (gsi.round_phase = "freezetime" ∨ gsi.round_phase = "over")) ∨
      (gsi.connected = true ∧ gsi.weapon_cat = WeaponCategory.other) :=
    Or.inl ⟨hconn, hphase⟩
  simp only [update_targets, if_pos hcond]
  by_cases hch : K4.const cfg.ap_normal = ctx.target_ap ∧
      K4.const cfg.rt_normal = ctx.target_rt
  · rw [if_neg (not_not_intro (by simpa using hch))]
    exact ⟨hch.1.symm, hch.2.symm⟩
  · rw [if_pos (by simpa using hch)]
    exact ⟨rfl, rfl⟩

/-- A connected freezetime snapshot for the C6 witness. -/
def c6_gsi : GsiSnapshot :=
  { weapon_cat := .rifle, round_phase := "freezetime", weapon_speed := 215,
    connected := true }

/-- A policy context with non-normal stored targets for the C6 witness. -/
def c6_ctx : PolicyCtx :=
  { h := axis_init, v := axis_init, crouching := true,
    target_ap := K4.const (4/10), target_rt := K4.const (1/10),
    needs_write := false }

/-- C6 (witness): the theorem at the default configuration, a connected
freezetime snapshot and a context holding aggressive targets. -/
theorem update_targets_freezetime_witness :
    (update_targets default_cfg c6_gsi 100 c6_ctx).target_ap
      = K4.const default_cfg.ap_normal ∧
    (update_targets default_cfg c6_gsi 100 c6_ctx).target_rt
      = K4.const default_cfg.rt_normal :=
  update_targets_freezetime default_cfg c6_gsi 100 c6_ctx rfl (Or.inl rfl)

/-- A firing do_write step tells the full story of the dispatch: the dirty
flag was set, the write interval had elapsed, the messages are the AP write
immediately followed by the matching RT write, and target was copied into
current with the time stamped. -/
theorem do_write_fire {cfg : Config} {freq now : ℚ} {s : WState}
    (h : (do_write cfg freq now s).2 ≠ []) :
    s.needs_write = true ∧
    cfg.write_interval_ms ≤ (now - s.last_write) * 1000 / freq ∧
    (do_write cfg freq now s).2 = [WMsg.actuation s.target_ap, WMsg.rapid s.target_rt] ∧
    (do_write cfg freq now s).1.current_ap = s.target_ap ∧
    (do_write cfg freq now s).1.current_rt = s.target_rt ∧
    (do_write cfg freq now s).1.last_write = now := by
  simp only [do_write] at h ⊢
  split_ifs at h ⊢ with h1 h2
  · exact absurd rfl h
  · exact absurd rfl h
  · exact ⟨by simpa using h1, not_lt.1 h2, rfl, rfl, rfl, rfl⟩

/-- A silent do_write step leaves the writer state untouched. -/
theorem do_write_silent {cfg : Config} {freq now : ℚ} {s : WState}
    (h : (do_write cfg freq now s).2 = []) :
    (do_write cfg freq now s).1 = s := by
  simp only [do_write] at h ⊢
  split_ifs at h ⊢
  · rfl
  · rfl

/-- set_targets never touches the last-write stamp. -/
theorem set_targets_last_write (ap rt : K4) (s : WState) :
    (set_targets ap rt s).last_write = s.last_write := by
  unfold set_targets
  split_ifs <;> rfl

/-- Dispatch times of any writer run are spaced by the write interval,
measured from the initial last-write stamp. -/
theorem wrun_spaced (cfg : Config) (freq : ℚ) :
    ∀ (es : List WEvent) (s : WState),
      wspaced cfg freq s.last_write (((wrun cfg freq s es).2).map Prod.fst) := by
  intro es
  induction es with
  | nil => intro s; simp [wrun, wspaced]
  | cons e es ih =>
    intro s
    cases e with
    | retarget ap rt =>
      have h := ih (set_targets ap rt s)
      rw [set_targets_last_write] at h
      simpa [wrun] using h
    | tick now =>
      by_cases hm : (do_write cfg freq now s).2 = []
      · have hs := do_write_silent hm
        simpa [wrun, hm, hs] using ih s
      · obtain ⟨-, h2, -, -, -, h6⟩ := do_write_fire hm
        have h := ih (do_write cfg freq now s).1
        rw [h6] at h
        simp only [wrun, hm, if_neg hm]
        exact ⟨h2, h⟩

/-- C7 (amended): the writer never emits two consecutive dispatches within
write_interval_ms of each other (using the do_write elapsed formula
(now − last_write) · 1000 / freq), and each dispatch happens only with the
needs_write flag set and the interval elapsed, sends the AP write
immediately followed by the matching RT write, and copies target into
current.  The needs_write flag, not target ≠ current, gates the dispatch;
see the counterexample for a dispatch with target = current. -/
theorem do_write_rate_limited :
    (∀ (cfg : Config) (freq : ℚ) (es : List WEvent) (s : WState),
      wspaced cfg freq s.last_write (((wrun cfg freq s es).2).map Prod.fst)) ∧
    (∀ (cfg : Config) (freq now : ℚ) (s : WState),
      (do_write cfg freq now s).2 ≠ [] →
      s.needs_write = true ∧
      cfg.write_interval_ms ≤ (now - s.last_write) * 1000 / freq ∧
      (do_write cfg freq now s).2
        = [WMsg.actuation s.target_ap, WMsg.rapid s.target_rt] ∧
      (do_write cfg freq now s).1.current_ap = s.target_ap ∧
      (do_write cfg freq now s).1.current_rt = s.target_rt) :=
  ⟨wrun_spaced, fun _ _ _ _ h =>
    let ⟨a, b, c, d, e, _⟩ := do_write_fire h
    ⟨a, b, c, d, e⟩⟩

/-- The configuration used for the C7 witness: default values with a zero
write interval so that the firing condition is immediate. -/
def c7w_cfg : Config := { default_cfg with write_interval_ms := 0 }

/-- A dirty writer state for the C7 witness. -/
def c7w_s : WState :=
  { target_ap := K4.const 1, target_rt := K4.const 1,
    current_ap := K4.const 0, current_rt := K4.const 0,
    needs_write := true, last_write := 0, write_count := 0 }

/-- C7 (witness): the rate-limit theorem applied to the empty run and to a
concrete firing step. -/
theorem do_write_rate_limited_witness :
    wspaced c7w_cfg 1 c7w_s.last_write (((wrun c7w_cfg 1 c7w_s []).2).map Prod.fst) ∧
    (c7w_s.needs_write = true ∧
     c7w_cfg.write_interval_ms ≤ (0 - c7w_s.last_write) * 1000 / 1 ∧
     (do_write c7w_cfg 1 0 c7w_s).2
       = [WMsg.actuation c7w_s.target_ap, WMsg.rapid c7w_s.target_rt] ∧
     (do_write c7w_cfg 1 0 c7w_s).1.current_ap = c7w_s.target_ap ∧
     (do_write c7w_cfg 1 0 c7w_s).1.current_rt = c7w_s.target_rt) :=
  ⟨do_write_rate_limited.1 c7w_cfg 1 [] c7w_s,
   do_write_rate_limited.2 c7w_cfg 1 0 c7w_s
     (by simp [do_write, c7w_cfg, c7w_s, default_cfg])⟩

/-- The writer state reached by stamping targets Y and then stamping the
original targets back before any dispatch: needs_write is set although
target and current agree again. -/
def c7_s2 : WState :=
  set_targets (K4.const 1) (K4.const 1)
    (set_targets (K4.const 2) (K4.const 2)
      { target_ap := K4.const 1, target_rt := K4.const 1,
        current_ap := K4.const 1, current_rt := K4.const 1,
        needs_write := false, last_write := 0, write_count := 0 })

/-- C7 (counterexample): a dispatch can occur when target equals current.
After the targets change away and back between dispatches, the dirty flag
stays set, and at the next eligible tick do_write emits a (redundant) write
even though target = current — refuting "a dispatch occurs only when
targets differ". -/
theorem do_write_equal_targets_counterexample :
    c7_s2.target_ap = c7_s2.current_ap ∧
    c7_s2.target_rt = c7_s2.current_rt ∧
    (do_write default_cfg 1000 100 c7_s2).2 ≠ [] := by
  have hs2 : c7_s2 = WState.mk (K4.const 1) (K4.const 1) (K4.const 1) (K4.const 1)
      true 0 0 := by
    norm_num [c7_s2, set_targets, K4.const]
  refine ⟨by rw [hs2], by rw [hs2], ?_⟩
  rw [hs2]
  norm_num [do_write, default_cfg]
  simp

/-- C8: building the actuation write for the single key (row 3, col 3,
0.4 mm) yields firmware value 26, entry (26 << 8) | 99 = 6755, the encoded
tagged body [0x12, 0x03, 0x08, 0xE3, 0x34], report id 1 as the smallest
report whose 32-byte capacity fits the 11-byte framed payload, and the
framed buffer [1, 0xD1, 0xDA, 21, 0, 5, 0, body…] zero-padded to exactly
33 bytes. -/
theorem hid_frame_round_trip :
    mm_to_firmware (2/5) = 26 ∧
    encode_key_entry 26 3 3 = 6755 ∧
    encode_varint 6755 = [0xE3, 0x34] ∧
    build_partial_proto [⟨3, 3, 2/5⟩] 512 = some [0x12, 0x03, 0x08, 0xE3, 0x34] ∧
    pick_report_id (6 + 5) = 1 ∧ 6 + 5 ≤ report_size 1 ∧
    wooting_hid_write_actuation (some ()) 0 (some [⟨3, 3, 2/5⟩]) 1 false =
      (true, [[1, 0xD1, 0xDA, 21, 0, 5, 0, 0x12, 0x03, 0x08, 0xE3, 0x34]
                ++ List.replicate 21 0]) ∧
    (send_data_frame CMD_ACTUATION 0 [0x12, 0x03, 0x08, 0xE3, 0x34]).length = 33 := by
  have h26 : mm_to_firmware (2/5) = 26 := by
    norm_num [mm_to_firmware, truncZ]; decide
  have hke : encode_key_entry 26 3 3 = 6755 := by decide
  have hv : encode_varint 6755 = [0xE3, 0x34] := by decide
  have hv3 : encode_varint 3 = [3] := by decide
  have hinner : build_inner [⟨3, 3, (2:ℚ)/5⟩] 0 = some [0x08, 0xE3, 0x34] := by
    simp [build_inner, h26, hke, hv]
  have hproto : build_partial_proto [⟨3, 3, (2:ℚ)/5⟩] 512
      = some [0x12, 0x03, 0x08, 0xE3, 0x34] := by
    simp [build_partial_proto, hinner, hv3]
  have hframe : send_data_frame 21 0 [0x12, 0x03, 0x08, 0xE3, 0x34]
      = [1, 0xD1, 0xDA, 21, 0, 5, 0, 0x12, 0x03, 0x08, 0xE3, 0x34]
          ++ List.replicate 21 0 := by
    simp [send_data_frame, pick_report_id, report_size]
  refine ⟨h26, hke, hv, hproto, by decide, by decide, ?_, ?_⟩
  · simp [wooting_hid_write_actuation, hproto, CMD_ACTUATION, hframe]
  · rw [show CMD_ACTUATION = 21 from rfl, hframe]
    simp

/-- C10: both per-key write entry points refuse a null device handle, a
null key array, or a nonpositive count: they return false at once and put
nothing on the wire. -/
theorem hid_write_guards (dev : Option Unit) (profile_idx : ℤ)
    (keys : Option (List KeySetting)) (count : ℤ) (save : Bool)
    (h : dev = none ∨ keys = none ∨ count ≤ 0) :
    wooting_hid_write_actuation dev profile_idx keys count save = (false, []) ∧
    wooting_hid_write_rt dev profile_idx keys count save = (false, []) := by
  constructor
  · unfold wooting_hid_write_actuation
    rw [if_pos h]
  · unfold wooting_hid_write_rt
    rw [if_pos h]

/-- C10 (witness): the guard theorem at a null device handle, and again at
count 0 with a live handle. -/
theorem hid_write_guards_witness :
    (wooting_hid_write_actuation none 0 (some [⟨3, 3, 2/5⟩]) 1 false = (false, []) ∧
     wooting_hid_write_rt none 0 (some [⟨3, 3, 2/5⟩]) 1 false = (false, [])) ∧
    (wooting_hid_write_actuation (some ()) 0 (some [⟨3, 3, 2/5⟩]) 0 false = (false, []) ∧
     wooting_hid_write_rt (some ()) 0 (some [⟨3, 3, 2/5⟩]) 0 false = (false, [])) :=
  ⟨hid_write_guards none 0 (some [⟨3, 3, 2/5⟩]) 1 false (Or.inl rfl),
   hid_write_guards (some ()) 0 (some [⟨3, 3, 2/5⟩]) 0 false
     (Or.inr (Or.inr (le_refl 0)))⟩
